import Mathlib

/-!
Shallow embedding of the Global Configuration Dashboard demo
(`src/app/page.js`, `src/app/GlobalConfigDashboard.jsx`).

JS strings become `String`; JS `null` where it can flow into a field is
modelled by `Option` (`none` = null / undefined); form data is an
association list of string pairs, mirroring `FormData.get` returning the
first value or null; the JS object used as a flag map is an association
list `List (String × Bool)` whose assignment updates in place or appends.
-/

/-- Derived configuration computed by the server component
`GlobalConfigurationPage` in `src/app/page.js`. -/
structure DerivedConfig where
  isLoggedIn : Bool
  currencyCode : String
  userLocation : String
deriving Repr, DecidableEq

/-- Server-side business logic of `GlobalConfigurationPage`
(`src/app/page.js` lines 172-178):
`currencyCode = GEO_COUNTRY_CODE === 'CA' ? 'CAD' : 'USD'`,
`isLoggedIn = Boolean(AUTH_TOKEN)`, `userLocation = GEO_COUNTRY_CODE`. -/
def deriveConfig (authToken : Bool) (geoCountryCode : String) : DerivedConfig :=
  { isLoggedIn := authToken
  , currencyCode := if geoCountryCode = "CA" then "CAD" else "USD"
  , userLocation := geoCountryCode }

/-- Client-side state held by `UserProvider` in
`src/app/GlobalConfigDashboard.jsx` (`useState` initial object). -/
structure ClientState where
  isLoggedIn : Bool
  userLocation : String
  currencyCode : String
deriving Repr, DecidableEq

/-- One entry of the `locations` array inside `toggleLocation`. -/
structure LocationEntry where
  location : String
  currency : String
deriving Repr, DecidableEq

/-- The five-element `locations` array of `toggleLocation`
(`src/app/GlobalConfigDashboard.jsx` lines 63-69). -/
def locations : List LocationEntry :=
  [ { location := "US", currency := "USD" }
  , { location := "CA", currency := "CAD" }
  , { location := "EU", currency := "EUR" }
  , { location := "UK", currency := "GBP" }
  , { location := "JP", currency := "JPY" } ]

/-- `toggleLocation` in `src/app/GlobalConfigDashboard.jsx` lines 60-81.
JS `findIndex` returns -1 when no entry matches, hence the `Int`
sentinel; `(currentIndex + 1) % locations.length` is computed on
non-negative values only, where JS `%` agrees with `Int.emod`. -/
def toggleLocation (prevState : ClientState) : ClientState :=
  let currentIndex : Int :=
    match locations.findIdx? (fun l => l.location == prevState.userLocation) with
    | some i => (i : Int)
    | none => -1
  let nextIndex : Int := (currentIndex + 1) % (locations.length : Int)
  let next := locations.getD nextIndex.toNat { location := "US", currency := "USD" }
  { prevState with userLocation := next.location, currencyCode := next.currency }

/-- `toggleLoginStatus` in `src/app/GlobalConfigDashboard.jsx` lines 88-93. -/
def toggleLoginStatus (prevState : ClientState) : ClientState :=
  { prevState with isLoggedIn := !prevState.isLoggedIn }

/-- Error thrown by `useUserContext` when no provider is in scope. -/
structure ConfigurationError where
  message : String
deriving Repr, DecidableEq

/-- `useUserContext` in `src/app/GlobalConfigDashboard.jsx` lines 115-121.
The ambient `useContext(UserContext)` result is the argument: `none`
models the `createContext(null)` default seen with no enclosing
`UserProvider`; `if (!context) throw ...` becomes `Except.error`. -/
def useUserContext (context : Option ClientState) : Except ConfigurationError ClientState :=
  match context with
  | none => Except.error { message := "useUserContext must be used within a UserProvider" }
  | some c => Except.ok c

/-- `USER_PREFERENCES` record of the simulated database
(`src/app/GlobalConfigDashboard.jsx` lines 594-597).  `currency` is an
`Option String` because the server action stores whatever
`formData.get('currency')` returns, which is null when absent. -/
structure UserPreferences where
  currency : Option String
  theme : String
deriving Repr, DecidableEq

/-- The global mutable `db` object (`src/app/GlobalConfigDashboard.jsx`
lines 593-601).  `FEATURE_FLAGS` is a JS object mapping flag names to
booleans, modelled as an association list. -/
structure Db where
  USER_PREFERENCES : UserPreferences
  FEATURE_FLAGS : List (String × Bool)
deriving Repr, DecidableEq

/-- The initial value of `db`. -/
def initialDb : Db :=
  { USER_PREFERENCES := { currency := some "USD", theme := "light" }
  , FEATURE_FLAGS := [("currencyToggleEnabled", true)] }

/-- `FormData.get(key)`: first value stored under `key`, or null. -/
def fdGet (formData : List (String × String)) (key : String) : Option String :=
  (formData.find? (fun p => p.1 == key)).map (fun p => p.2)

/-- JS property read `FEATURE_FLAGS[name]`: the stored boolean, or
undefined (`none`) when the key is absent. -/
def lookupFlag (flags : List (String × Bool)) (name : String) : Option Bool :=
  (flags.find? (fun p => p.1 == name)).map (fun p => p.2)

/-- JS truthiness of a `Bool`-or-undefined value. -/
def truthy (b : Option Bool) : Bool := b.getD false

/-- JS property write `FEATURE_FLAGS[name] = value`: overwrite the
existing key or add it. -/
def setFlag (flags : List (String × Bool)) (name : String) (value : Bool) :
    List (String × Bool) :=
  match flags with
  | [] => [(name, value)]
  | (k, v) :: rest =>
      if k == name then (k, value) :: rest else (k, v) :: setFlag rest name value

/-- Snapshot returned by `getServerPreferences`. -/
structure PreferencesSnapshot where
  currency : Option String
  theme : String
  currencyToggleEnabled : Option Bool
deriving Repr, DecidableEq

/-- `getServerPreferences` (`src/app/GlobalConfigDashboard.jsx` lines
615-630): reads the current `db` snapshot.  The simulated 100ms latency
has no effect on the returned value and is not modelled. -/
def getServerPreferences (db : Db) : PreferencesSnapshot :=
  { currency := db.USER_PREFERENCES.currency
  , theme := db.USER_PREFERENCES.theme
  , currencyToggleEnabled := lookupFlag db.FEATURE_FLAGS "currencyToggleEnabled" }

/-- Server action `updateUserCurrency` (`src/app/GlobalConfigDashboard.jsx`
lines 651-676): `db.USER_PREFERENCES.currency = formData.get('currency')`.
The 500ms simulated write latency and the `revalidatePath` notification
change no stored data; the returned `Db` is the state after the action
completes. -/
def updateUserCurrency (formData : List (String × String)) (db : Db) : Db :=
  { db with USER_PREFERENCES :=
      { db.USER_PREFERENCES with currency := fdGet formData "currency" } }

/-- Server action `toggleFeatureFlag` (`src/app/GlobalConfigDashboard.jsx`
lines 691-712): `db.FEATURE_FLAGS[flagName] = !db.FEATURE_FLAGS[flagName]`.
When the `flagName` field is absent, `formData.get` yields null and the
JS property access coerces it to the string key "null". -/
def toggleFeatureFlag (formData : List (String × String)) (db : Db) : Db :=
  let flagName := (fdGet formData "flagName").getD "null"
  { db with FEATURE_FLAGS :=
      (setFlag db.FEATURE_FLAGS flagName
        (!(truthy (lookupFlag db.FEATURE_FLAGS flagName)))) }

/-- Looking a key up right after setting it returns the written value. -/
theorem lookupFlag_setFlag_same (flags : List (String × Bool)) (name : String) (value : Bool) :
    lookupFlag (setFlag flags name value) name = some value := by
  induction flags with
  | nil => simp [setFlag, lookupFlag]
  | cons hd tl ih =>
      obtain ⟨k, v⟩ := hd
      by_cases hk : k = name
      · subst hk
        simp [setFlag, lookupFlag]
      · simp only [setFlag, lookupFlag, List.find?] at *
        simp [beq_iff_eq, hk, ih]

/-- Reference successor function for the spec's fixed ordered cycle
(US,USD) → (CA,CAD) → (EU,EUR) → (UK,GBP) → (JP,JPY) → (US,USD),
written from the spec's words for comparison with `toggleLocation`. -/
def nextCyclePair (p : String × String) : String × String :=
  if p = ("US", "USD") then ("CA", "CAD")
  else if p = ("CA", "CAD") then ("EU", "EUR")
  else if p = ("EU", "EUR") then ("UK", "GBP")
  else if p = ("UK", "GBP") then ("JP", "JPY")
  else ("US", "USD")

/-- The `toggleFeatureFlag` action flips the truthiness of the named
flag, whether or not the flag is present. -/
theorem toggleFeatureFlag_flips
    (formData : List (String × String)) (f : String) (db : Db)
    (hf : fdGet formData "flagName" = some f) :
    truthy (lookupFlag (toggleFeatureFlag formData db).FEATURE_FLAGS f)
      = !(truthy (lookupFlag db.FEATURE_FLAGS f)) := by
  simp [toggleFeatureFlag, hf, lookupFlag_setFlag_same, truthy]

/-- C1: after `updateUserCurrency` completes on form data whose
`currency` field is `c`, a subsequent `getServerPreferences` returns a
record whose currency equals `c` — no stale read. -/
theorem updateUserCurrency_no_stale_read
    (formData : List (String × String)) (c : String) (db : Db)
    (h : fdGet formData "currency" = some c) :
    (getServerPreferences (updateUserCurrency formData db)).currency = some c := by
  simp [getServerPreferences, updateUserCurrency, h]

/-- Witness for C1: setting currency to "EUR" and then reading yields "EUR". -/
theorem updateUserCurrency_no_stale_read_witness :
    fdGet [("currency", "EUR")] "currency" = some "EUR" ∧
    (getServerPreferences (updateUserCurrency [("currency", "EUR")] initialDb)).currency
      = some "EUR" :=
  ⟨by decide, updateUserCurrency_no_stale_read [("currency", "EUR")] "EUR" initialDb (by decide)⟩

/-- C2: the config derivation is total and deterministic with
`isLoggedIn = authToken`, `currencyCode = "CAD"` exactly when the geo
code is "CA" and `"USD"` otherwise, and `userLocation` passed through. -/
theorem deriveConfig_correct (authToken : Bool) (geoCountryCode : String) :
    (deriveConfig authToken geoCountryCode).isLoggedIn = authToken ∧
    (deriveConfig authToken geoCountryCode).currencyCode
      = (if geoCountryCode = "CA" then "CAD" else "USD") ∧
    (deriveConfig authToken geoCountryCode).userLocation = geoCountryCode :=
  ⟨rfl, rfl, rfl⟩

/-- C5: `toggleLoginStatus` flips `isLoggedIn`, leaves `userLocation`
and `currencyCode` unchanged, and applying it twice restores
`isLoggedIn`. -/
theorem toggleLoginStatus_involution_frame (s : ClientState) :
    (toggleLoginStatus s).isLoggedIn = !s.isLoggedIn ∧
    (toggleLoginStatus s).userLocation = s.userLocation ∧
    (toggleLoginStatus s).currencyCode = s.currencyCode ∧
    (toggleLoginStatus (toggleLoginStatus s)).isLoggedIn = s.isLoggedIn := by
  refine ⟨rfl, rfl, rfl, ?_⟩
  simp [toggleLoginStatus]

/-- C8: `updateUserCurrency` accepts any string (no validation path
exists: the action is a total function on form data) and unconditionally
overwrites the store's currency field with it. -/
theorem updateUserCurrency_accepts_anything
    (formData : List (String × String)) (s : String) (db : Db)
    (h : fdGet formData "currency" = some s) :
    (updateUserCurrency formData db).USER_PREFERENCES.currency = some s := by
  simp [updateUserCurrency, h]

/-- Witness for C8: an arbitrary non-enum string "ZZZ" is stored verbatim. -/
theorem updateUserCurrency_accepts_anything_witness :
    fdGet [("currency", "ZZZ")] "currency" = some "ZZZ" ∧
    (updateUserCurrency [("currency", "ZZZ")] initialDb).USER_PREFERENCES.currency
      = some "ZZZ" :=
  ⟨by decide, updateUserCurrency_accepts_anything [("currency", "ZZZ")] "ZZZ" initialDb (by decide)⟩

/-- C9: reading the user context with no ancestor-provided value fails
with a configuration error that is returned to the caller, not swallowed
and not replaced by a default value. -/
theorem useUserContext_without_provider_fails :
    useUserContext none
      = Except.error { message := "useUserContext must be used within a UserProvider" } :=
  rfl

/-- C10: `updateUserCurrency` mutates only the currency field: the theme
and the whole feature-flag set (so in particular
`currencyToggleEnabled`) are unchanged. -/
theorem updateUserCurrency_frame
    (formData : List (String × String)) (c : String) (db : Db)
    (h : fdGet formData "currency" = some c) :
    (updateUserCurrency formData db).USER_PREFERENCES.theme = db.USER_PREFERENCES.theme ∧
    (updateUserCurrency formData db).FEATURE_FLAGS = db.FEATURE_FLAGS :=
  ⟨rfl, rfl⟩

/-- Witness for C10: writing "EUR" leaves theme and flags untouched. -/
theorem updateUserCurrency_frame_witness :
    fdGet [("currency", "EUR")] "currency" = some "EUR" ∧
    ((updateUserCurrency [("currency", "EUR")] initialDb).USER_PREFERENCES.theme
        = initialDb.USER_PREFERENCES.theme ∧
      (updateUserCurrency [("currency", "EUR")] initialDb).FEATURE_FLAGS
        = initialDb.FEATURE_FLAGS) :=
  ⟨by decide, updateUserCurrency_frame [("currency", "EUR")] "EUR" initialDb (by decide)⟩

/-- C3: from any client state whose (location, currency) pair is one of
the five cycle entries, one `toggleLocation` advances to the next entry
of the fixed ordered cycle, and five applications return the
(currency, location) pair to its original value. -/
theorem toggleLocation_cycle_closure (s : ClientState)
    (h : (s.userLocation, s.currencyCode)
      ∈ [("US", "USD"), ("CA", "CAD"), ("EU", "EUR"), ("UK", "GBP"), ("JP", "JPY")]) :
    ((toggleLocation s).userLocation, (toggleLocation s).currencyCode)
      = nextCyclePair (s.userLocation, s.currencyCode) ∧
    ((toggleLocation^[5] s).userLocation, (toggleLocation^[5] s).currencyCode)
      = (s.userLocation, s.currencyCode) := by
  obtain ⟨b, loc, cur⟩ := s
  simp only [List.mem_cons, List.not_mem_nil, or_false, Prod.mk.injEq] at h
  rcases h with ⟨h1, h2⟩ | ⟨h1, h2⟩ | ⟨h1, h2⟩ | ⟨h1, h2⟩ | ⟨h1, h2⟩ <;>
    subst h1 <;> subst h2 <;> exact ⟨rfl, rfl⟩

/-- Witness for C3: starting at (EU, EUR), one step reaches (UK, GBP)
and five steps return to (EU, EUR). -/
theorem toggleLocation_cycle_closure_witness :
    (("EU", "EUR") : String × String)
      ∈ [("US", "USD"), ("CA", "CAD"), ("EU", "EUR"), ("UK", "GBP"), ("JP", "JPY")] ∧
    (((toggleLocation ⟨true, "EU", "EUR"⟩).userLocation,
        (toggleLocation ⟨true, "EU", "EUR"⟩).currencyCode)
      = nextCyclePair ("EU", "EUR") ∧
      ((toggleLocation^[5] ⟨true, "EU", "EUR"⟩).userLocation,
        (toggleLocation^[5] ⟨true, "EU", "EUR"⟩).currencyCode)
      = ("EU", "EUR")) :=
  ⟨by decide, toggleLocation_cycle_closure ⟨true, "EU", "EUR"⟩ (by decide)⟩

/-- C4: with form data naming flag `f`, toggling when `f` is absent from
the flag set yields `f` true, toggling a second time yields `f` false,
and in general a toggle flips the named boolean flag in any store. -/
theorem toggleFeatureFlag_semantics
    (formData : List (String × String)) (f : String) (db db2 : Db)
    (hf : fdGet formData "flagName" = some f)
    (habsent : lookupFlag db.FEATURE_FLAGS f = none) :
    truthy (lookupFlag (toggleFeatureFlag formData db).FEATURE_FLAGS f) = true ∧
    truthy (lookupFlag
      (toggleFeatureFlag formData (toggleFeatureFlag formData db)).FEATURE_FLAGS f) = false ∧
    truthy (lookupFlag (toggleFeatureFlag formData db2).FEATURE_FLAGS f)
      = !(truthy (lookupFlag db2.FEATURE_FLAGS f)) := by
  refine ⟨?_, ?_, toggleFeatureFlag_flips formData f db2 hf⟩
  · rw [toggleFeatureFlag_flips formData f db hf, habsent]
    rfl
  · rw [toggleFeatureFlag_flips formData f _ hf,
      toggleFeatureFlag_flips formData f db hf, habsent]
    rfl

/-- Witness for C4: toggling the unset flag "x" in the initial store
makes it true, toggling again makes it false. -/
theorem toggleFeatureFlag_semantics_witness :
    fdGet [("flagName", "x")] "flagName" = some "x" ∧
    lookupFlag initialDb.FEATURE_FLAGS "x" = none ∧
    truthy (lookupFlag
      (toggleFeatureFlag [("flagName", "x")] initialDb).FEATURE_FLAGS "x") = true ∧
    truthy (lookupFlag (toggleFeatureFlag [("flagName", "x")]
      (toggleFeatureFlag [("flagName", "x")] initialDb)).FEATURE_FLAGS "x") = false :=
  ⟨by decide, by decide,
    (toggleFeatureFlag_semantics [("flagName", "x")] "x" initialDb initialDb
      (by decide) (by decide)).1,
    (toggleFeatureFlag_semantics [("flagName", "x")] "x" initialDb initialDb
      (by decide) (by decide)).2.1⟩

/-- Counterexample for C6: at the unrecognized geo code "XX" the derived
configuration keeps userLocation "XX"; it does not fall back to the pair
(USD, US) as claimed. -/
theorem deriveConfig_fallback_counterexample :
    ¬ ((deriveConfig true "XX").currencyCode = "USD" ∧
      (deriveConfig true "XX").userLocation = "US") := by
  decide

/-- C6 (amended): for every geo code outside the recognized set, the
derived configuration falls back to currencyCode "USD" while
userLocation carries the geo code through unchanged. -/
theorem deriveConfig_unrecognized_geo (authToken : Bool) (geoCountryCode : String)
    (h : geoCountryCode ∉ ["CA", "US", "EU", "UK", "JP"]) :
    (deriveConfig authToken geoCountryCode).currencyCode = "USD" ∧
    (deriveConfig authToken geoCountryCode).userLocation = geoCountryCode := by
  have hca : geoCountryCode ≠ "CA" := by
    intro hc
    exact h (by simp [hc])
  simp [deriveConfig, hca]

/-- Witness for C6 (amended): the unrecognized code "XX" yields currency
"USD" and location "XX". -/
theorem deriveConfig_unrecognized_geo_witness :
    ("XX" : String) ∉ ["CA", "US", "EU", "UK", "JP"] ∧
    ((deriveConfig false "XX").currencyCode = "USD" ∧
      (deriveConfig false "XX").userLocation = "XX") :=
  ⟨by decide, deriveConfig_unrecognized_geo false "XX" (by decide)⟩

/-- C7: from any client state whose userLocation matches none of the
five cycle entries, a single `toggleLocation` lands on the first entry,
location "US" and currency "USD": the JS findIndex sentinel -1 plus one,
modulo five, selects index 0. -/
theorem toggleLocation_unmatched_fallback (s : ClientState)
    (h : s.userLocation ∉ ["US", "CA", "EU", "UK", "JP"]) :
    (toggleLocation s).userLocation = "US" ∧
    (toggleLocation s).currencyCode = "USD" := by
  have hfind : locations.findIdx? (fun l => l.location == s.userLocation) = none := by
    simp only [List.mem_cons, List.not_mem_nil, or_false, not_or] at h
    obtain ⟨h1, h2, h3, h4, h5⟩ := h
    simp [locations, List.findIdx?, beq_iff_eq,
      Ne.symm h1, Ne.symm h2, Ne.symm h3, Ne.symm h4, Ne.symm h5]
  rw [toggleLocation, hfind]
  exact ⟨rfl, rfl⟩

/-- Witness for C7: from the unmatched location "ZZ" one step reaches
(US, USD). -/
theorem toggleLocation_unmatched_fallback_witness :
    ("ZZ" : String) ∉ ["US", "CA", "EU", "UK", "JP"] ∧
    ((toggleLocation ⟨false, "ZZ", "USD"⟩).userLocation = "US" ∧
      (toggleLocation ⟨false, "ZZ", "USD"⟩).currencyCode = "USD") :=
  ⟨by decide, toggleLocation_unmatched_fallback ⟨false, "ZZ", "USD"⟩ (by decide)⟩
